import Mathlib

/-!
Shallow embedding of the two CrewAI-Playground scripts
(src/conflict-detector/main.py and src/script-writer/main.py).

The scripts are linear configuration assembly around two external effects: the
CrewAI `crew.kickoff()` network run and the DuckDuckGo search engine.  Both
external effects are modelled as oracle parameters.  Everything the scripts
observably do — console prints, construction of LLM / agent / task / crew
configuration objects, the single kickoff call, and entry into an `except`
handler — is recorded in an event trace, so ordering and error-handling claims
become statements about traces.
-/

/-- An operating-system environment: a partial map from variable names to
values, as read by `os.getenv`. -/
def Env : Type := String → Option String

/-- The value `os.getenv name` delivers after Python truthiness filtering:
`none` when the variable is unset or set to the empty string (both make
`if not api_key:` fire), otherwise the value. -/
def getenvTruthy (env : Env) (name : String) : Option String :=
  match env name with
  | none => none
  | some v => if v = "" then none else some v

namespace CrewAI

/-- A Python exception, reduced to what the scripts observe of it: its kind and
the text that `str(error)` produces. -/
inductive PyError : Type where
  | valueError (msg : String)
  | generic (msg : String)
deriving DecidableEq

/-- The text `str(error)` yields for an exception. -/
def PyError.message : PyError → String
  | .valueError m => m
  | .generic m => m

/-- The crewai `LLM` client handle as configured by these scripts: both call
sites pass exactly the keyword arguments `model`, `api_key` and `temperature`,
so the handle carries exactly those three fields. -/
structure LLM : Type where
  model : String
  api_key : String
  temperature : Rat
deriving DecidableEq

/-- The crewai `Agent` configuration object, with the fields these scripts set.
Tools are identified by the wrapped function name; agents constructed without a
`tools` argument get the empty list. -/
structure Agent : Type where
  role : String
  goal : String
  backstory : String
  tools : List String
  verbose : Bool
  allow_delegation : Bool
  llm : LLM
deriving DecidableEq

/-- The crewai `Task` configuration object, with the fields these scripts set.
`context` is the list of tasks whose declared output is fed into this task;
tasks constructed without a `context` argument get the empty list. -/
inductive Task : Type where
  | mk (description : String) (expected_output : String) (agent : Agent)
       (context : List Task)

/-- The `description` field of a task. -/
def Task.description : Task → String
  | .mk d _ _ _ => d

/-- The `expected_output` field of a task. -/
def Task.expected_output : Task → String
  | .mk _ e _ _ => e

/-- The `agent` field of a task. -/
def Task.agent : Task → Agent
  | .mk _ _ a _ => a

/-- The `context` field of a task. -/
def Task.context : Task → List Task
  | .mk _ _ _ c => c

/-- The crewai `Crew` configuration object, with the fields these scripts set. -/
structure Crew : Type where
  agents : List Agent
  tasks : List Task
  verbose : Bool

/-- One observable step of a script run: a console print, the construction of a
configuration object, the external `crew.kickoff()` call, or entry into an
`except` handler together with the exception it caught. -/
inductive Event : Type where
  | printed (line : String)
  | builtLLM (llm : LLM)
  | builtAgent (a : Agent)
  | builtTask (t : Task)
  | builtCrew (c : Crew)
  | kickoff (c : Crew)
  | caught (e : PyError)

/-- True exactly for construction events and the kickoff call — the steps the
spec says must not happen after a missing-credential failure or after the
single run call. -/
def Event.isBuildOrKickoff : Event → Bool
  | .printed _ => false
  | .caught _ => false
  | _ => true

/-- True exactly for the external `crew.kickoff()` call. -/
def Event.isKickoff : Event → Bool
  | .kickoff _ => true
  | _ => false

/-- True exactly for entry into an `except` handler. -/
def Event.isCaught : Event → Bool
  | .caught _ => true
  | _ => false

/-- The behaviour of the external `crew.kickoff()` network run: it either
returns result text or raises. -/
def RunOracle : Type := Crew → Except PyError String

end CrewAI

open CrewAI

namespace ConflictDetector

/-- The message of the `ValueError` raised by `setup_llm` when `GOOGLE_API_KEY`
is missing (src/conflict-detector/main.py lines 29-32). -/
def missingKeyMsg : String :=
  "GOOGLE_API_KEY environment variable is required. Please set it with your Google API key."

/-- Translation of `setup_llm` (src/conflict-detector/main.py lines 14-41):
read `GOOGLE_API_KEY`, raise a `ValueError` when it is falsy, otherwise return
the Gemini handle with temperature 0.1. -/
def setup_llm (env : Env) : Except PyError LLM :=
  match getenvTruthy env "GOOGLE_API_KEY" with
  | none => .error (.valueError missingKeyMsg)
  | some api_key =>
      .ok { model := "gemini/gemini-1.5-flash", api_key := api_key, temperature := 1/10 }

/-- Translation of `create_conflict_detection_agent`
(src/conflict-detector/main.py lines 44-70). -/
def create_conflict_detection_agent (llm : LLM) : Agent :=
  { role := "Critical Thinker"
    goal := "Analyse the text and identify if any conflicting information within"
    backstory := "\n        You are an expert critical thinker with exceptional analytical skills.\n        Your specialty is identifying contradictions, inconsistencies, and conflicting \n        statements within text. You have years of experience in logic, reasoning, \n        and fact-checking. You approach every text with a methodical mindset, \n        carefully examining each statement for potential conflicts with other \n        statements in the same text.\n        "
    tools := []
    verbose := true
    allow_delegation := false
    llm := llm }

/-- The part of the analysis-task description template before the interpolated
text (src/conflict-detector/main.py lines 85-87). -/
def analysisDescPre : String :=
  "Find if there are any conflicting statement / information in text.\n        \n        Text to analyze:\n        "

/-- The part of the analysis-task description template after the interpolated
text (src/conflict-detector/main.py lines 89-96). -/
def analysisDescPost : String :=
  "\n        \n        Instructions:\n        1. Read the entire text carefully\n        2. Identify all factual statements and claims\n        3. Look for contradictions, inconsistencies, or conflicting information\n        4. Determine if any statements contradict each other\n        5. Provide your final answer as either \x27conflict\x27 or \x27no conflict\x27\n        "

/-- Translation of `create_analysis_task` (src/conflict-detector/main.py lines
73-101): the f-string embeds `text_to_analyze` between the two template
parts; no `context` argument is passed. -/
def create_analysis_task (agent : Agent) (text_to_analyze : String) : Task :=
  .mk (analysisDescPre ++ text_to_analyze ++ analysisDescPost)
      "Respond with \x27conflict\x27 / \x27no conflict\x27"
      agent
      []

/-- Translation of `analyze_text_for_conflicts` (src/conflict-detector/main.py
lines 104-146), with its `try`/`except` that prints the error and re-raises.
Returns the event trace together with the returned or re-raised outcome. -/
def analyze_text_for_conflicts (env : Env) (run : RunOracle) (text : String) :
    List Event × Except PyError String :=
  let ev0 : List Event := [.printed "🔧 Setting up Gemini LLM..."]
  match setup_llm env with
  | .error e =>
      (ev0 ++ [.caught e, .printed ("❌ Error during analysis: " ++ e.message)], .error e)
  | .ok llm =>
      let agent := create_conflict_detection_agent llm
      let task := create_analysis_task agent text
      let crew : Crew := { agents := [agent], tasks := [task], verbose := true }
      let ev1 : List Event :=
        ev0 ++ [.builtLLM llm,
                .printed "🤖 Creating Critical Thinker agent...", .builtAgent agent,
                .printed "📋 Setting up conflict detection task...", .builtTask task,
                .printed "👥 Assembling crew...", .builtCrew crew,
                .printed "🚀 Starting conflict analysis...", .kickoff crew]
      match run crew with
      | .error e =>
          (ev1 ++ [.caught e, .printed ("❌ Error during analysis: " ++ e.message)], .error e)
      | .ok result => (ev1, .ok result)

/-- The hard-coded sample text of the first script (src/conflict-detector/main.py
line 158). -/
def sample_text : String := "It\x27s a sunny day, let me take an umbrella to the office."

/-- A line of sixty equals signs, `"=" * 60`. -/
def eq60 : String := String.mk (List.replicate 60 '=')

/-- A line of sixty dashes, `"-" * 60`. -/
def dash60 : String := String.mk (List.replicate 60 '-')

/-- Translation of `main` (src/conflict-detector/main.py lines 149-174): banner
prints, the call to `analyze_text_for_conflicts` on the sample text, and the
top-level `try`/`except` that prints the failure and a hint. -/
def main (env : Env) (run : RunOracle) : List Event :=
  let header : List Event :=
    [.printed eq60, .printed "🔍 CrewAI Conflict Detection Example", .printed eq60,
     .printed ("\n📝 Analyzing text: \x27" ++ sample_text ++ "\x27"), .printed dash60]
  match analyze_text_for_conflicts env run sample_text with
  | (evs, .ok result) =>
      header ++ evs ++
        [.printed ("\n" ++ eq60), .printed ("🎯 Final Result: " ++ result), .printed eq60]
  | (evs, .error e) =>
      header ++ evs ++
        [.caught e, .printed ("\n❌ Analysis failed: " ++ e.message),
         .printed "Please check your GOOGLE_API_KEY and try again."]

end ConflictDetector

/-- True for exactly the characters Python's `str.strip()` removes: the
codepoints on which `str.isspace()` holds — 0x09-0x0D, 0x1C-0x20 (file,
group, record and unit separators plus space), 0x85 (next line), 0xA0
(no-break space), 0x1680 (ogham space mark), 0x2000-0x200A (typographic
spaces), 0x2028 and 0x2029 (line and paragraph separators), 0x202F and
0x205F (narrow no-break and medium mathematical space) and 0x3000
(ideographic space). -/
def pyWhite (c : Char) : Bool :=
  let n := c.toNat
  (9 <= n && n <= 13) || (28 <= n && n <= 32) || n == 133 || n == 160 ||
  n == 5760 || (8192 <= n && n <= 8202) || n == 8232 || n == 8233 ||
  n == 8239 || n == 8287 || n == 12288

/-- List-level model of Python's `str.strip()`: drop leading whitespace, then
drop trailing whitespace. -/
def stripList (l : List Char) : List Char :=
  ((l.dropWhile pyWhite).reverse.dropWhile pyWhite).reverse

/-- Model of Python's `str.strip()` on strings. -/
def pyStrip (s : String) : String :=
  String.mk (stripList s.data)

namespace ScriptWriter

/-- The third-party DuckDuckGo client: `DuckDuckGoSearchRun()` takes no
arguments and its `run` method maps the query to result text or raises.  The
engine behaviour is external, so the constructor is an oracle parameter. -/
structure DuckDuckGoSearchRun : Type where
  run : String → Except PyError String

/-- Translation of the `duckduckgo_search` tool wrapper (src/script-writer/main.py
lines 19-23): construct the engine, forward the query to `run`, and return
whatever it returns; there is no other logic, so engine exceptions propagate. -/
def duckduckgo_search (mkEngine : Unit → DuckDuckGoSearchRun) (query : String) :
    Except PyError String :=
  let search_engine := mkEngine ()
  search_engine.run query

/-- The message of the `ValueError` raised by `setup_llm` when no key is found
(src/script-writer/main.py lines 47-50). -/
def missingKeyMsg : String :=
  "No API key found. Please set either GOOGLE_API_KEY or OPENAI_API_KEY environment variable."

/-- Translation of `setup_llm` (src/script-writer/main.py lines 26-50): only
`GOOGLE_API_KEY` is consulted; when it is truthy the function prints and
returns the Gemini handle with temperature 0.7, otherwise it raises.  No other
environment variable is read. -/
def setup_llm (env : Env) : List Event × Except PyError LLM :=
  match getenvTruthy env "GOOGLE_API_KEY" with
  | some gemini_api_key =>
      ([.printed "🔧 Using Gemini LLM..."],
       .ok { model := "gemini/gemini-1.5-flash", api_key := gemini_api_key,
             temperature := 7/10 })
  | none => ([], .error (.valueError missingKeyMsg))

/-- Translation of `create_research_agent` (src/script-writer/main.py lines
53-78); its tool list holds the wrapped `duckduckgo_search` tool. -/
def create_research_agent (llm : LLM) : Agent :=
  { role := "Research Specialist"
    goal := "Gather comprehensive and accurate information about the given topic from web sources"
    backstory := "\n        You are an experienced research specialist with expertise in finding reliable \n        information quickly and efficiently. You excel at synthesizing multiple sources \n        into coherent summaries that capture the most important and interesting aspects \n        of any topic. Your research forms the foundation for engaging content creation.\n        "
    tools := ["duckduckgo_search"]
    verbose := true
    allow_delegation := false
    llm := llm }

/-- Translation of `create_podcast_script_agent` (src/script-writer/main.py
lines 81-106). -/
def create_podcast_script_agent (llm : LLM) : Agent :=
  { role := "Podcast Script Writer"
    goal := "Transform research content into an engaging, humorous, and conversational podcast script"
    backstory := "\n        You are a talented podcast script writer known for your wit, humor, and ability \n        to make any topic entertaining. You excel at creating conversational content that \n        feels like a friend telling you an interesting story over coffee. Your scripts \n        are filled with personality, occasional jokes, fun observations, and engaging \n        storytelling techniques that keep listeners hooked from start to finish.\n        "
    tools := []
    verbose := true
    allow_delegation := false
    llm := llm }

/-- The part of the research-task description template before the first
interpolation of the topic (src/script-writer/main.py lines 121-122). -/
def researchDescPre : String :=
  "\n        Research the topic \""

/-- The part of the research-task description template between the two
interpolations of the topic (src/script-writer/main.py lines 122-134). -/
def researchDescMid : String :=
  "\" thoroughly using web search capabilities.\n        \n        Your research should include:\n        1. Key facts and background information\n        2. Interesting stories, anecdotes, or case studies\n        3. Recent developments or news\n        4. Fun facts or surprising details\n        5. Different perspectives or controversies (if any)\n        \n        Compile your findings into a comprehensive research summary that provides \n        rich material for creating an engaging podcast script.\n        \n        Topic to research: "

/-- The part of the research-task description template after the second
interpolation of the topic (src/script-writer/main.py lines 134-135). -/
def researchDescPost : String :=
  "\n        "

/-- The research-task expected output (src/script-writer/main.py lines
136-143). -/
def researchExpected : String :=
  "\n        A well-structured research summary containing:\n        - Key facts and background information\n        - Interesting stories and anecdotes\n        - Recent developments\n        - Fun facts and surprising details\n        - Multiple perspectives on the topic\n        "

/-- Translation of `create_research_task` (src/script-writer/main.py lines
109-147): the f-string embeds the topic twice; no `context` argument is
passed. -/
def create_research_task (research_agent : Agent) (topic : String) : Task :=
  .mk (researchDescPre ++ topic ++ researchDescMid ++ topic ++ researchDescPost)
      researchExpected
      research_agent
      []

/-- The script-writing-task description (src/script-writer/main.py lines
162-182); it is a plain string with no interpolation. -/
def scriptDesc : String :=
  "\n        Using the research provided, create an engaging and humorous podcast script.\n        \n        The script should:\n        1. Start with an attention-grabbing hook\n        2. Present information in a conversational, storytelling format\n        3. Include humor, wit, and entertaining commentary\n        4. Use a friendly, accessible tone (like talking to a friend)\n        5. Add transitions and personality throughout\n        6. Include occasional jokes, observations, or funny comparisons\n        7. End with a memorable conclusion\n        \n        Style guidelines:\n        - Write as if you\x27re a charismatic podcast host\n        - Use \"we\", \"you\", and conversational language\n        - Add parenthetical stage directions for emphasis: (dramatic pause), (chuckles), etc.\n        - Include rhetorical questions to engage the audience\n        - Make it feel spontaneous and natural, not scripted\n        \n        Length: Aim for a 5-10 minute podcast segment (approximately 750-1500 words).\n        "

/-- The script-writing-task expected output (src/script-writer/main.py lines
183-192). -/
def scriptExpected : String :=
  "\n        A complete podcast script formatted with:\n        - Clear intro hook\n        - Conversational narrative flow\n        - Humorous commentary and observations  \n        - Engaging storytelling elements\n        - Natural transitions between topics\n        - Memorable conclusion\n        - Stage directions in parentheses\n        "

/-- Translation of `create_script_writing_task` (src/script-writer/main.py
lines 150-197): the task is constructed with `context=[research_task]`. -/
def create_script_writing_task (script_agent : Agent) (research_task : Task) : Task :=
  .mk scriptDesc scriptExpected script_agent [research_task]

/-- A line of eighty equals signs, `"=" * 80`. -/
def eq80 : String := String.mk (List.replicate 80 '=')

/-- A line of eighty dashes, `"-" * 80`. -/
def dash80 : String := String.mk (List.replicate 80 '-')

/-- Translation of `create_podcast_script` (src/script-writer/main.py lines
200-252), with its `try`/`except` that prints the error and re-raises.
Returns the event trace together with the returned or re-raised outcome. -/
def create_podcast_script (env : Env) (run : RunOracle) (topic : String) :
    List Event × Except PyError String :=
  let ev0 : List Event := [.printed "🔧 Setting up language model..."]
  match setup_llm env with
  | (evSetup, .error e) =>
      (ev0 ++ evSetup ++
        [.caught e, .printed ("❌ Error during script creation: " ++ e.message)],
       .error e)
  | (evSetup, .ok llm) =>
      let research_agent := create_research_agent llm
      let script_agent := create_podcast_script_agent llm
      let research_task := create_research_task research_agent topic
      let script_task := create_script_writing_task script_agent research_task
      let crew : Crew :=
        { agents := [research_agent, script_agent],
          tasks := [research_task, script_task], verbose := true }
      let ev1 : List Event :=
        ev0 ++ evSetup ++
          [.builtLLM llm,
           .printed "🔍 Creating Research Specialist agent...", .builtAgent research_agent,
           .printed "🎙️ Creating Podcast Script Writer agent...", .builtAgent script_agent,
           .printed "📋 Setting up research task...", .builtTask research_task,
           .printed "📝 Setting up script writing task...", .builtTask script_task,
           .printed "👥 Assembling the podcast production crew...", .builtCrew crew,
           .printed ("🚀 Starting podcast script creation for topic: \x27" ++ topic ++ "\x27..."),
           .printed eq80, .kickoff crew]
      match run crew with
      | .error e =>
          (ev1 ++ [.caught e, .printed ("❌ Error during script creation: " ++ e.message)],
           .error e)
      | .ok result => (ev1, .ok result)

/-- The no-topic message printed by `main` (src/script-writer/main.py line 270). -/
def noTopicMsg : String :=
  "❌ No topic provided. Please run the script again with a valid topic."

/-- The banner prints of `main`, ending with the `input` prompt
(src/script-writer/main.py lines 259-267). -/
def mainHeader : List Event :=
  [.printed eq80, .printed "🎙️ CrewAI Podcast Script Writer", .printed eq80,
   .printed "Welcome to the AI-powered podcast script generator!",
   .printed "This tool will research any topic and create an engaging podcast script.",
   .printed dash80,
   .printed "\n📝 Enter the topic for your podcast script: "]

/-- Translation of `main` (src/script-writer/main.py lines 255-292): the raw
line read from standard input is stripped; an empty result short-circuits with
a message, otherwise `create_podcast_script` runs under the top-level
`try`/`except`. -/
def main (env : Env) (run : RunOracle) (rawTopic : String) : List Event :=
  let topic := pyStrip rawTopic
  if topic = "" then
    mainHeader ++ [.printed noTopicMsg]
  else
    let pre : List Event :=
      mainHeader ++
        [.printed ("\n🎯 Topic selected: \x27" ++ topic ++ "\x27"),
         .printed "🔄 Starting the script creation process...",
         .printed eq80]
    match create_podcast_script env run topic with
    | (evs, .ok script) =>
        pre ++ evs ++
          [.printed ("\n" ++ eq80), .printed "🎉 PODCAST SCRIPT COMPLETE!",
           .printed eq80,
           .printed ("\n" ++ "🎙️🎙️🎙️🎙️🎙️ FINAL PODCAST SCRIPT 🎙️🎙️🎙️🎙️🎙️"),
           .printed dash80, .printed script, .printed dash80,
           .printed "🎉 Script generation complete! Ready for recording!"]
    | (evs, .error e) =>
        pre ++ evs ++
          [.caught e, .printed ("\n❌ Script creation failed: " ++ e.message)]

end ScriptWriter

/-- Auxiliary test: the first character list is a prefix of the second. -/
def isPrefixChars : List Char → List Char → Bool
  | [], _ => true
  | _ :: _, [] => false
  | x :: xs, y :: ys => x == y && isPrefixChars xs ys

/-- Auxiliary test: `sub` occurs contiguously inside the second list. -/
def containsChars (sub : List Char) : List Char → Bool
  | [] => isPrefixChars sub []
  | c :: rest => isPrefixChars sub (c :: rest) || containsChars sub rest

/-- True when `sub` occurs as a contiguous substring of `s`. -/
def strContains (s sub : String) : Bool :=
  containsChars sub.data s.data

/-- A test environment in which only GOOGLE_API_KEY is set. -/
def envGoogle : Env :=
  fun name => if name = "GOOGLE_API_KEY" then some "test-key" else none

/-- A test environment in which no variable is set. -/
def envEmpty : Env := fun _ => none

/-- A test environment in which only OPENAI_API_KEY is set. -/
def envOpenAIOnly : Env :=
  fun name => if name = "OPENAI_API_KEY" then some "sk-test" else none

/-- A kickoff oracle for which every run raises a network error. -/
def runNetFail : RunOracle := fun _ => .error (.generic "network failure")

/-- A kickoff oracle for which every run returns fixed text. -/
def runFixed : RunOracle := fun _ => .ok "the result text"

/-- The LLM handle the first script builds from credential `k`. -/
def ConflictDetector.llmFor (k : String) : LLM :=
  { model := "gemini/gemini-1.5-flash", api_key := k, temperature := 1/10 }

/-- The crew the first script assembles for credential `k` and input `text`. -/
def ConflictDetector.crewFor (k text : String) : Crew :=
  { agents := [create_conflict_detection_agent (llmFor k)]
    tasks := [create_analysis_task (create_conflict_detection_agent (llmFor k)) text]
    verbose := true }

/-- The LLM handle the second script builds from credential `k`. -/
def ScriptWriter.llmFor (k : String) : LLM :=
  { model := "gemini/gemini-1.5-flash", api_key := k, temperature := 7/10 }

/-- The crew the second script assembles for credential `k` and topic `topic`. -/
def ScriptWriter.crewFor (k topic : String) : Crew :=
  { agents := [create_research_agent (llmFor k), create_podcast_script_agent (llmFor k)]
    tasks := [create_research_task (create_research_agent (llmFor k)) topic,
              create_script_writing_task (create_podcast_script_agent (llmFor k))
                (create_research_task (create_research_agent (llmFor k)) topic)]
    verbose := true }

/-!
Helper lemmas about `dropWhile` and the `str.strip()` model.
-/

theorem dropWhile_self_append {α : Type} (p : α → Bool) :
    ∀ l : List α, ∃ t, t ++ l.dropWhile p = l := by
  intro l
  induction l with
  | nil => exact ⟨[], rfl⟩
  | cons a t ih =>
      by_cases h : p a
      · obtain ⟨u, hu⟩ := ih
        exact ⟨a :: u, by simp [List.dropWhile_cons, h, hu]⟩
      · exact ⟨[], by simp [List.dropWhile_cons, h]⟩

theorem dropWhile_head_false {α : Type} (p : α → Bool) :
    ∀ (l : List α) (c : α) (cs : List α), l.dropWhile p = c :: cs → p c = false := by
  intro l
  induction l with
  | nil => intro c cs h; simp [List.dropWhile] at h
  | cons a t ih =>
      intro c cs h
      by_cases ha : p a
      · exact ih c cs (by simpa [List.dropWhile_cons, ha] using h)
      · rw [List.dropWhile_cons, if_neg (by simpa using ha)] at h
        cases h
        simpa using ha

theorem dropWhile_dropWhile {α : Type} (p : α → Bool) (l : List α) :
    (l.dropWhile p).dropWhile p = l.dropWhile p := by
  cases h : l.dropWhile p with
  | nil => rfl
  | cons c cs =>
      have hc : p c = false := dropWhile_head_false p l c cs h
      simp [List.dropWhile_cons, hc]

theorem stripList_dropWhile (l : List Char) :
    (stripList l).dropWhile pyWhite = stripList l := by
  unfold stripList
  obtain ⟨t, ht⟩ := dropWhile_self_append pyWhite (l.dropWhile pyWhite).reverse
  cases hBr : (((l.dropWhile pyWhite).reverse.dropWhile pyWhite)).reverse with
  | nil => simp
  | cons c cs =>
      have hA : l.dropWhile pyWhite = c :: (cs ++ t.reverse) := by
        have h2 := congrArg List.reverse ht
        rw [List.reverse_append] at h2
        rw [List.reverse_reverse] at h2
        rw [hBr] at h2
        simpa using h2.symm
      have hc : pyWhite c = false := dropWhile_head_false pyWhite l c _ hA
      simp [List.dropWhile_cons, hc]

theorem stripList_getLast (l : List Char) (c : Char)
    (h : (stripList l).getLast? = some c) : pyWhite c = false := by
  unfold stripList at h
  rw [List.getLast?_reverse] at h
  cases hB : (l.dropWhile pyWhite).reverse.dropWhile pyWhite with
  | nil => rw [hB] at h; simp at h
  | cons b bs =>
      rw [hB] at h
      simp at h
      obtain rfl := h
      exact dropWhile_head_false pyWhite _ _ _ hB

theorem stripList_idem (l : List Char) : stripList (stripList l) = stripList l := by
  conv_lhs => rw [stripList]
  rw [stripList_dropWhile l]
  unfold stripList
  rw [List.reverse_reverse]
  rw [dropWhile_dropWhile]

theorem pyStrip_idem (s : String) : pyStrip (pyStrip s) = pyStrip s :=
  congrArg String.mk (stripList_idem s.data)

theorem stripList_nil_of_all (l : List Char) (h : ∀ c ∈ l, pyWhite c) :
    stripList l = [] := by
  unfold stripList
  rw [List.dropWhile_eq_nil_iff.mpr h]
  rfl

/-!
Claim theorems.
-/

/-- C3: `create_script_writing_task` wires the given research task as the sole
context of the returned script-writing task, so the first task's declared
output feeds the second task. -/
theorem c3_script_task_context (script_agent : Agent) (research_task : Task) :
    (ScriptWriter.create_script_writing_task script_agent research_task).context
      = [research_task] := rfl

/-- C7: the `duckduckgo_search` wrapper returns exactly what the engine's `run`
method produces on the unchanged query — successes verbatim and engine
exceptions propagated — with no logic of its own. -/
theorem c7_duckduckgo_forwards (mkEngine : Unit → ScriptWriter.DuckDuckGoSearchRun)
    (query : String) :
    ScriptWriter.duckduckgo_search mkEngine query = (mkEngine ()).run query ∧
    (∀ e, (mkEngine ()).run query = Except.error e →
        ScriptWriter.duckduckgo_search mkEngine query = Except.error e) ∧
    (∀ r, (mkEngine ()).run query = Except.ok r →
        ScriptWriter.duckduckgo_search mkEngine query = Except.ok r) :=
  ⟨rfl, fun _ h => h, fun _ h => h⟩

/-- Witness for C7 at a concrete engine and query. -/
theorem c7_witness :
    ScriptWriter.duckduckgo_search (fun _ => ⟨fun q => Except.ok ("results: " ++ q)⟩) "lean"
      = Except.ok "results: lean" :=
  (c7_duckduckgo_forwards (fun _ => ⟨fun q => Except.ok ("results: " ++ q)⟩) "lean").2.2
    "results: lean" rfl

/-- C10: constructed task descriptions embed the input verbatim — the
analysis-task description contains the analyzed text as a substring, and the
research-task description contains the topic in two places. -/
theorem c10_description_embeds_input (agent : Agent) (text topic : String) :
    (∃ a b, (ConflictDetector.create_analysis_task agent text).description
        = a ++ text ++ b) ∧
    (∃ a b c, (ScriptWriter.create_research_task agent topic).description
        = a ++ topic ++ b ++ topic ++ c) :=
  ⟨⟨ConflictDetector.analysisDescPre, ConflictDetector.analysisDescPost, rfl⟩,
   ⟨ScriptWriter.researchDescPre, ScriptWriter.researchDescMid,
    ScriptWriter.researchDescPost, rfl⟩⟩

/-- C6: with the credential present, both scripts build the hosted LLM handle
from exactly a model name, the credential and a sampling temperature —
gemini/gemini-1.5-flash at 0.1 in the first script and at 0.7 in the second;
the handle carries no other generation parameter. -/
theorem c6_llm_configuration (env : Env) (k : String)
    (h : getenvTruthy env "GOOGLE_API_KEY" = some k) :
    ConflictDetector.setup_llm env
      = Except.ok { model := "gemini/gemini-1.5-flash", api_key := k, temperature := 1/10 } ∧
    (ScriptWriter.setup_llm env).2
      = Except.ok { model := "gemini/gemini-1.5-flash", api_key := k, temperature := 7/10 } := by
  unfold ConflictDetector.setup_llm ScriptWriter.setup_llm
  rw [h]
  exact ⟨rfl, rfl⟩

/-- Witness for C6 at a concrete environment. -/
theorem c6_witness :
    getenvTruthy envGoogle "GOOGLE_API_KEY" = some "test-key" ∧
    (ConflictDetector.setup_llm envGoogle
        = Except.ok { model := "gemini/gemini-1.5-flash", api_key := "test-key",
                      temperature := 1/10 } ∧
     (ScriptWriter.setup_llm envGoogle).2
        = Except.ok { model := "gemini/gemini-1.5-flash", api_key := "test-key",
                      temperature := 7/10 }) :=
  ⟨rfl, c6_llm_configuration envGoogle "test-key" rfl⟩

/-- C9: the second script's `setup_llm` consults only GOOGLE_API_KEY — it
raises the `ValueError` whenever that variable is falsy even when
OPENAI_API_KEY is set, its result depends only on GOOGLE_API_KEY, and yet its
error message names both variables. -/
theorem c9_only_google_key_consulted :
    (∀ (env : Env) (s : String), env "OPENAI_API_KEY" = some s →
        getenvTruthy env "GOOGLE_API_KEY" = none →
        ScriptWriter.setup_llm env
          = ([], Except.error (.valueError ScriptWriter.missingKeyMsg))) ∧
    (∀ env1 env2 : Env, env1 "GOOGLE_API_KEY" = env2 "GOOGLE_API_KEY" →
        ScriptWriter.setup_llm env1 = ScriptWriter.setup_llm env2) ∧
    (∃ a b c, ScriptWriter.missingKeyMsg
        = a ++ "GOOGLE_API_KEY" ++ b ++ "OPENAI_API_KEY" ++ c) := by
  refine ⟨fun env s hs h => ?_, fun env1 env2 h => ?_, ?_⟩
  · unfold ScriptWriter.setup_llm
    rw [h]
  · unfold ScriptWriter.setup_llm getenvTruthy
    rw [h]
  · exact ⟨"No API key found. Please set either ", " or ", " environment variable.", rfl⟩

/-- Witness for C9: with OPENAI_API_KEY set and GOOGLE_API_KEY unset, the
second script's `setup_llm` still raises. -/
theorem c9_witness :
    envOpenAIOnly "OPENAI_API_KEY" = some "sk-test" ∧
    getenvTruthy envOpenAIOnly "GOOGLE_API_KEY" = none ∧
    ScriptWriter.setup_llm envOpenAIOnly
      = ([], Except.error (.valueError ScriptWriter.missingKeyMsg)) :=
  ⟨rfl, rfl, c9_only_google_key_consulted.1 envOpenAIOnly "sk-test" rfl rfl⟩

/-- C1: whenever GOOGLE_API_KEY is unset or empty, both scripts fail inside
`setup_llm` with a ValueError whose message names the missing variable; the
resulting trace holds only the initial print, the handler entry and the
handler's print — no LLM, agent, task or crew is constructed and the kickoff
network call never happens. -/
theorem c1_missing_key_fails_before_network (env : Env) (run : RunOracle)
    (text topic : String)
    (h : getenvTruthy env "GOOGLE_API_KEY" = none) :
    ConflictDetector.analyze_text_for_conflicts env run text
      = ([.printed "🔧 Setting up Gemini LLM...",
          .caught (.valueError ConflictDetector.missingKeyMsg),
          .printed ("❌ Error during analysis: " ++ ConflictDetector.missingKeyMsg)],
         Except.error (.valueError ConflictDetector.missingKeyMsg)) ∧
    (ConflictDetector.analyze_text_for_conflicts env run text).1.filter
        Event.isBuildOrKickoff = [] ∧
    (∃ a b, ConflictDetector.missingKeyMsg = a ++ "GOOGLE_API_KEY" ++ b) ∧
    ScriptWriter.create_podcast_script env run topic
      = ([.printed "🔧 Setting up language model...",
          .caught (.valueError ScriptWriter.missingKeyMsg),
          .printed ("❌ Error during script creation: " ++ ScriptWriter.missingKeyMsg)],
         Except.error (.valueError ScriptWriter.missingKeyMsg)) ∧
    (ScriptWriter.create_podcast_script env run topic).1.filter
        Event.isBuildOrKickoff = [] ∧
    (∃ a b, ScriptWriter.missingKeyMsg = a ++ "GOOGLE_API_KEY" ++ b) := by
  have hcd : ConflictDetector.analyze_text_for_conflicts env run text
      = ([.printed "🔧 Setting up Gemini LLM...",
          .caught (.valueError ConflictDetector.missingKeyMsg),
          .printed ("❌ Error during analysis: " ++ ConflictDetector.missingKeyMsg)],
         Except.error (.valueError ConflictDetector.missingKeyMsg)) := by
    unfold ConflictDetector.analyze_text_for_conflicts ConflictDetector.setup_llm
    rw [h]
    rfl
  have hsw : ScriptWriter.create_podcast_script env run topic
      = ([.printed "🔧 Setting up language model...",
          .caught (.valueError ScriptWriter.missingKeyMsg),
          .printed ("❌ Error during script creation: " ++ ScriptWriter.missingKeyMsg)],
         Except.error (.valueError ScriptWriter.missingKeyMsg)) := by
    unfold ScriptWriter.create_podcast_script ScriptWriter.setup_llm
    rw [h]
    rfl
  refine ⟨hcd, ?_,
    ⟨"", " environment variable is required. Please set it with your Google API key.", rfl⟩,
    hsw, ?_,
    ⟨"No API key found. Please set either ", " or OPENAI_API_KEY environment variable.", rfl⟩⟩
  · rw [hcd]
    rfl
  · rw [hsw]
    rfl

/-- Witness for C1: with an empty environment, both orchestration functions
fail with the respective ValueError and produce only the three-event trace. -/
theorem c1_witness :
    getenvTruthy envEmpty "GOOGLE_API_KEY" = none ∧
    ConflictDetector.analyze_text_for_conflicts envEmpty runFixed "sample"
      = ([.printed "🔧 Setting up Gemini LLM...",
          .caught (.valueError ConflictDetector.missingKeyMsg),
          .printed ("❌ Error during analysis: " ++ ConflictDetector.missingKeyMsg)],
         Except.error (.valueError ConflictDetector.missingKeyMsg)) ∧
    ScriptWriter.create_podcast_script envEmpty runFixed "ai"
      = ([.printed "🔧 Setting up language model...",
          .caught (.valueError ScriptWriter.missingKeyMsg),
          .printed ("❌ Error during script creation: " ++ ScriptWriter.missingKeyMsg)],
         Except.error (.valueError ScriptWriter.missingKeyMsg)) :=
  ⟨rfl, (c1_missing_key_fails_before_network envEmpty runFixed "sample" "ai" rfl).1,
   (c1_missing_key_fails_before_network envEmpty runFixed "sample" "ai" rfl).2.2.2.1⟩

/-- C2: an input whose stripped form is empty makes the second script's `main`
print the no-topic message and return at once — its whole trace is the banner
plus that message, so no LLM, agent or task construction and no call to
`create_podcast_script` takes place. -/
theorem c2_empty_topic_short_circuit (env : Env) (run : RunOracle)
    (rawTopic : String) (h : pyStrip rawTopic = "") :
    ScriptWriter.main env run rawTopic
      = ScriptWriter.mainHeader ++ [.printed ScriptWriter.noTopicMsg] := by
  unfold ScriptWriter.main
  rw [h]
  rfl

/-- Witness for C2 at a whitespace-only input that mixes an ASCII space with
a no-break space, both of which `str.strip()` removes. -/
theorem c2_witness :
    pyStrip " \u00A0" = "" ∧
    ScriptWriter.main envGoogle runFixed " \u00A0"
      = ScriptWriter.mainHeader ++ [.printed ScriptWriter.noTopicMsg] :=
  ⟨by decide, c2_empty_topic_short_circuit envGoogle runFixed " \u00A0" (by decide)⟩

/-- C5: with the credential present, each orchestration function follows the
fixed order LLM handle → persona descriptor(s) → task descriptor(s) → crew →
single `crew.kickoff()` call: the construction-and-kickoff events of the trace
are exactly that sequence, with the kickoff occurring once and last, and the
returned outcome is exactly what the single run call produced. -/
theorem c5_pipeline_order (env : Env) (run : RunOracle) (text topic k : String)
    (h : getenvTruthy env "GOOGLE_API_KEY" = some k) :
    ((ConflictDetector.analyze_text_for_conflicts env run text).1.filter
        Event.isBuildOrKickoff
      = [.builtLLM (ConflictDetector.llmFor k),
         .builtAgent (ConflictDetector.create_conflict_detection_agent
            (ConflictDetector.llmFor k)),
         .builtTask (ConflictDetector.create_analysis_task
            (ConflictDetector.create_conflict_detection_agent
              (ConflictDetector.llmFor k)) text),
         .builtCrew (ConflictDetector.crewFor k text),
         .kickoff (ConflictDetector.crewFor k text)] ∧
     (ConflictDetector.analyze_text_for_conflicts env run text).2
        = run (ConflictDetector.crewFor k text)) ∧
    ((ScriptWriter.create_podcast_script env run topic).1.filter
        Event.isBuildOrKickoff
      = [.builtLLM (ScriptWriter.llmFor k),
         .builtAgent (ScriptWriter.create_research_agent (ScriptWriter.llmFor k)),
         .builtAgent (ScriptWriter.create_podcast_script_agent (ScriptWriter.llmFor k)),
         .builtTask (ScriptWriter.create_research_task
            (ScriptWriter.create_research_agent (ScriptWriter.llmFor k)) topic),
         .builtTask (ScriptWriter.create_script_writing_task
            (ScriptWriter.create_podcast_script_agent (ScriptWriter.llmFor k))
            (ScriptWriter.create_research_task
              (ScriptWriter.create_research_agent (ScriptWriter.llmFor k)) topic)),
         .builtCrew (ScriptWriter.crewFor k topic),
         .kickoff (ScriptWriter.crewFor k topic)] ∧
     (ScriptWriter.create_podcast_script env run topic).2
        = run (ScriptWriter.crewFor k topic)) := by
  have hsetupCD : ConflictDetector.setup_llm env = .ok (ConflictDetector.llmFor k) := by
    unfold ConflictDetector.setup_llm ConflictDetector.llmFor
    rw [h]
  have hsetupSW : ScriptWriter.setup_llm env
      = ([.printed "🔧 Using Gemini LLM..."], .ok (ScriptWriter.llmFor k)) := by
    unfold ScriptWriter.setup_llm ScriptWriter.llmFor
    rw [h]
  constructor
  · cases hr : run (ConflictDetector.crewFor k text) with
    | error e =>
        simp only [ConflictDetector.crewFor, ConflictDetector.llmFor] at hr
        simp only [ConflictDetector.analyze_text_for_conflicts, hsetupCD,
          ConflictDetector.crewFor, ConflictDetector.llmFor, hr]
        simp [Event.isBuildOrKickoff]
    | ok r =>
        simp only [ConflictDetector.crewFor, ConflictDetector.llmFor] at hr
        simp only [ConflictDetector.analyze_text_for_conflicts, hsetupCD,
          ConflictDetector.crewFor, ConflictDetector.llmFor, hr]
        simp [Event.isBuildOrKickoff]
  · cases hr : run (ScriptWriter.crewFor k topic) with
    | error e =>
        simp only [ScriptWriter.crewFor, ScriptWriter.llmFor] at hr
        simp only [ScriptWriter.create_podcast_script, hsetupSW,
          ScriptWriter.crewFor, ScriptWriter.llmFor, hr]
        simp [Event.isBuildOrKickoff]
    | ok r =>
        simp only [ScriptWriter.crewFor, ScriptWriter.llmFor] at hr
        simp only [ScriptWriter.create_podcast_script, hsetupSW,
          ScriptWriter.crewFor, ScriptWriter.llmFor, hr]
        simp [Event.isBuildOrKickoff]

/-- Witness for C5 at a concrete environment and oracle: the returned outcome
is the single run call's answer on the assembled crew. -/
theorem c5_witness :
    getenvTruthy envGoogle "GOOGLE_API_KEY" = some "test-key" ∧
    (ConflictDetector.analyze_text_for_conflicts envGoogle runFixed "sample").2
      = runFixed (ConflictDetector.crewFor "test-key" "sample") ∧
    (ScriptWriter.create_podcast_script envGoogle runFixed "ai").2
      = runFixed (ScriptWriter.crewFor "test-key" "ai") :=
  ⟨rfl, (c5_pipeline_order envGoogle runFixed "sample" "ai" "test-key" rfl).1.2,
   (c5_pipeline_order envGoogle runFixed "sample" "ai" "test-key" rfl).2.2⟩

/-- C4 (amended): errors other than the missing credential are not classified
and propagate with no retry or recovery — the kickoff is attempted exactly
once — but each script's error path runs two `except` handlers, not one: the
orchestration function catches the exception, prints it and re-raises, and the
top-level `main` handler catches it again and prints it again, so the
exception is caught twice and its message printed twice per run. -/
theorem c4_error_double_handling (env : Env) (run : RunOracle) (e : PyError)
    (rawTopic k : String)
    (hk : getenvTruthy env "GOOGLE_API_KEY" = some k)
    (hrun : ∀ c, run c = Except.error e)
    (ht : pyStrip rawTopic ≠ "") :
    ((ConflictDetector.main env run).countP Event.isCaught = 2 ∧
     (ConflictDetector.main env run).countP Event.isKickoff = 1 ∧
     Event.printed ("❌ Error during analysis: " ++ e.message)
        ∈ ConflictDetector.main env run ∧
     Event.printed ("\n❌ Analysis failed: " ++ e.message)
        ∈ ConflictDetector.main env run) ∧
    ((ScriptWriter.main env run rawTopic).countP Event.isCaught = 2 ∧
     (ScriptWriter.main env run rawTopic).countP Event.isKickoff = 1 ∧
     Event.printed ("❌ Error during script creation: " ++ e.message)
        ∈ ScriptWriter.main env run rawTopic ∧
     Event.printed ("\n❌ Script creation failed: " ++ e.message)
        ∈ ScriptWriter.main env run rawTopic) := by
  have hsetupCD : ConflictDetector.setup_llm env = .ok (ConflictDetector.llmFor k) := by
    unfold ConflictDetector.setup_llm ConflictDetector.llmFor
    rw [hk]
  have hsetupSW : ScriptWriter.setup_llm env
      = ([.printed "🔧 Using Gemini LLM..."], .ok (ScriptWriter.llmFor k)) := by
    unfold ScriptWriter.setup_llm ScriptWriter.llmFor
    rw [hk]
  constructor
  · simp only [ConflictDetector.main, ConflictDetector.analyze_text_for_conflicts,
      hsetupCD, hrun]
    refine ⟨?_, ?_, ?_, ?_⟩ <;>
      simp [Event.isCaught, Event.isKickoff]
  · simp only [ScriptWriter.main]
    rw [if_neg ht]
    simp only [ScriptWriter.create_podcast_script, hsetupSW, hrun]
    refine ⟨?_, ?_, ?_, ?_⟩ <;>
      simp [Event.isCaught, Event.isKickoff, ScriptWriter.mainHeader]

/-- Counterexample for C4 as stated: with the credential set and a kickoff
that raises a network error, the first script's run enters two `except`
handlers and prints two lines carrying the error text, not one. -/
theorem c4_counterexample :
    (ConflictDetector.main envGoogle runNetFail).countP Event.isCaught = 2 ∧
    (ConflictDetector.main envGoogle runNetFail).countP
      (fun ev => match ev with
        | .printed s => strContains s "network failure"
        | _ => false) = 2 := by
  constructor <;> rfl

/-- Witness for C4 (amended) at a concrete environment, oracle and topic. -/
theorem c4_witness :
    getenvTruthy envGoogle "GOOGLE_API_KEY" = some "test-key" ∧
    pyStrip "ai" ≠ "" ∧
    (ConflictDetector.main envGoogle runNetFail).countP Event.isKickoff = 1 ∧
    (ScriptWriter.main envGoogle runNetFail "ai").countP Event.isCaught = 2 :=
  ⟨rfl, by decide,
   (c4_error_double_handling envGoogle runNetFail (.generic "network failure")
      "ai" "test-key" rfl (fun _ => rfl) (by decide)).1.2.1,
   (c4_error_double_handling envGoogle runNetFail (.generic "network failure")
      "ai" "test-key" rfl (fun _ => rfl) (by decide)).2.1⟩

/-- C8: the second script strips the entered topic with `str.strip()` before
the emptiness check — a whitespace-only input short-circuits exactly like an
empty one, running on a raw input is the same as running on its stripped form,
and stripping is idempotent, so the first and last characters of the topic
used downstream are never whitespace. -/
theorem c8_topic_stripped (env : Env) (run : RunOracle) :
    (∀ raw : String, raw.data.all pyWhite = true →
        ScriptWriter.main env run raw
          = ScriptWriter.mainHeader ++ [.printed ScriptWriter.noTopicMsg]) ∧
    (∀ raw : String,
        ScriptWriter.main env run raw = ScriptWriter.main env run (pyStrip raw)) ∧
    (∀ (raw : String) (c : Char) (rest : List Char),
        (pyStrip raw).data = c :: rest → pyWhite c = false) ∧
    (∀ (raw : String) (c : Char),
        (pyStrip raw).data.getLast? = some c → pyWhite c = false) := by
  refine ⟨fun raw hw => ?_, fun raw => ?_, fun raw c rest hc => ?_, fun raw c hc => ?_⟩
  · have hnil : stripList raw.data = [] :=
      stripList_nil_of_all raw.data (by simpa [List.all_eq_true] using hw)
    have h : pyStrip raw = "" := by
      unfold pyStrip
      rw [hnil]
    unfold ScriptWriter.main
    rw [h]
    rfl
  · unfold ScriptWriter.main
    rw [pyStrip_idem]
  · have hd := stripList_dropWhile raw.data
    rw [show (pyStrip raw).data = stripList raw.data from rfl] at hc
    rw [hc] at hd
    exact dropWhile_head_false pyWhite (c :: rest) c rest hd
  · rw [show (pyStrip raw).data = stripList raw.data from rfl] at hc
    exact stripList_getLast raw.data c hc

/-- Witness for C8: an input of tab, space, no-break space and file separator
— all stripped by `str.strip()` — short-circuits, and a topic padded with
no-break spaces behaves like its stripped form. -/
theorem c8_witness :
    ((" \t\u00A0\x1c") : String).data.all pyWhite = true ∧
    ScriptWriter.main envGoogle runFixed " \t\u00A0\x1c"
      = ScriptWriter.mainHeader ++ [.printed ScriptWriter.noTopicMsg] ∧
    ScriptWriter.main envGoogle runFixed "\u00A0hello\u00A0"
      = ScriptWriter.main envGoogle runFixed (pyStrip "\u00A0hello\u00A0") :=
  ⟨by decide, (c8_topic_stripped envGoogle runFixed).1 " \t\u00A0\x1c" (by decide),
   (c8_topic_stripped envGoogle runFixed).2.1 "\u00A0hello\u00A0"⟩
